import Mathlib

/-!
Shallow embedding of the snake-game core (HyeongjongKIM/snake-game) in Lean 4:
the `Snake` entity (src/snake.ts), the `Food` generator (src/snake.ts, Food
class), the high-score logic (src/score.ts), the fixed-timestep frame callback
(src/game-loop-controller.ts) and the per-tick session update (src/main.ts,
second Game class). Positions are integer pairs; times are integer
milliseconds. Randomness (Math.random) is modelled by explicit parameters: a
sample sequence for Food.generate and an oracle argument for the direction
substituted by setDirection and the food position regenerated during a tick.
-/

namespace SnakeGame

/-- A grid cell, the `Position` type of src/types.ts: an integer pair with
componentwise equality. -/
structure Pos where
  x : Int
  y : Int
deriving DecidableEq, Repr

instance : Inhabited Pos := ⟨⟨0, 0⟩⟩

/-- The state of the `Snake` class (src/snake.ts): the body (head first), the
current movement direction, and the queue of pending directions. The
`gridSize` field (pixels per cell, used only by `draw`) is omitted. -/
structure Snake where
  body : List Pos
  currentDirection : Pos
  moveQueue : List Pos
deriving DecidableEq, Repr

/-- `getHead` returns `body[0]`. On an empty body the JS code would yield
`undefined`; every reachable state has a non-empty body, and theorems that
look at the head assume it. -/
def Snake.getHead (s : Snake) : Pos :=
  s.body.headI

/-- `Snake.move`: dequeue the front of the move queue into `currentDirection`
when the queue is non-empty, then prepend `body[0] + currentDirection`. -/
def Snake.move (s : Snake) : Snake :=
  let dir :=
    match s.moveQueue with
    | [] => s.currentDirection
    | d :: _ => d
  let queue :=
    match s.moveQueue with
    | [] => ([] : List Pos)
    | _ :: rest => rest
  let head := s.body.headI
  { body := ⟨head.x + dir.x, head.y + dir.y⟩ :: s.body
    currentDirection := dir
    moveQueue := queue }

/-- `Snake.removeTail`: pop the last body element, but only when the body has
more than one segment. -/
def Snake.removeTail (s : Snake) : Snake :=
  if 1 < s.body.length then { s with body := s.body.dropLast } else s

/-- `Snake.checkSelfCollision`: true iff `body[0]` equals `body[i]`
componentwise for some `i ≥ 1`. -/
def Snake.checkSelfCollision (s : Snake) : Bool :=
  match s.body with
  | [] => false
  | head :: rest => rest.any fun seg => seg.x == head.x && seg.y == head.y

/-- `Snake.checkWallCollision(tileCount)`: true iff the head is outside
`[0, tileCount) × [0, tileCount)`. -/
def Snake.checkWallCollision (s : Snake) (tileCount : Int) : Bool :=
  let head := s.body.headI
  decide (head.x < 0) || decide (tileCount ≤ head.x) ||
    decide (head.y < 0) || decide (tileCount ≤ head.y)

/-- `Snake.init(tileCount)`: one body cell at the grid center
`(⌊tileCount/2⌋, ⌊tileCount/2⌋)`, direction `(0,0)`, empty queue. -/
def Snake.init (tileCount : Nat) : Snake :=
  let c : Pos := ⟨(tileCount / 2 : Nat), (tileCount / 2 : Nat)⟩
  { body := [c], currentDirection := ⟨0, 0⟩, moveQueue := [] }

/-- `Snake.queueDirection(direction)`: append to the move queue only when its
length is below 2. -/
def Snake.queueDirection (s : Snake) (direction : Pos) : Snake :=
  if s.moveQueue.length < 2 then { s with moveQueue := s.moveQueue ++ [direction] }
  else s

/-- `Snake.getNextQueuedDirection`: the last queued direction when the queue is
non-empty, otherwise the current direction. -/
def Snake.getNextQueuedDirection (s : Snake) : Pos :=
  match s.moveQueue.getLast? with
  | some d => d
  | none => s.currentDirection

/-- `Snake.isValidDirectionChange(newDirection)`: rejects exactly the
componentwise negation of `getNextQueuedDirection`. -/
def Snake.isValidDirectionChange (s : Snake) (newDirection : Pos) : Bool :=
  let current := s.getNextQueuedDirection
  !(newDirection.x == -current.x && newDirection.y == -current.y)

/-- `Snake.setDirection(direction)`: assign the direction immediately and clear
the queue; a zero input is replaced by a random unit direction, modelled here
by the extra `randomDir` argument. -/
def Snake.setDirection (s : Snake) (direction : Pos) (randomDir : Pos) : Snake :=
  let d := if direction.x == 0 && direction.y == 0 then randomDir else direction
  { s with currentDirection := d, moveQueue := [] }

/-- The direction that `move` will use: the front of the queue when non-empty,
otherwise the current direction. -/
def Snake.activeDirection (s : Snake) : Pos :=
  match s.moveQueue with
  | [] => s.currentDirection
  | d :: _ => d

/-- Fold a list of `queueDirection` calls over a snake state. -/
def Snake.queueDirections (s : Snake) (ds : List Pos) : Snake :=
  ds.foldl Snake.queueDirection s

/-- One simulation tick at the snake level when no food is eaten: `move()`
followed by the `removeTail()` of the food-miss branch of the session's
`checkFoodCollision`. -/
def Snake.tickNoFood (s : Snake) : Snake :=
  s.move.removeTail

/-- Snake states reachable by the game: initialised by `init` and then mutated
only through `move`, `removeTail`, `queueDirection` and `setDirection`. -/
inductive Snake.Reachable : Snake → Prop
  | init (tileCount : Nat) : Snake.Reachable (Snake.init tileCount)
  | move {s : Snake} : Snake.Reachable s → Snake.Reachable s.move
  | removeTail {s : Snake} : Snake.Reachable s → Snake.Reachable s.removeTail
  | queueDirection {s : Snake} (d : Pos) :
      Snake.Reachable s → Snake.Reachable (s.queueDirection d)
  | setDirection {s : Snake} (d r : Pos) :
      Snake.Reachable s → Snake.Reachable (s.setDirection d r)

/-- The membership test of `Food.generate`: `snakeBody.some(segment =>
segment.x === p.x && segment.y === p.y)`. -/
def onBody (snakeBody : List Pos) (p : Pos) : Bool :=
  snakeBody.any fun segment => segment.x == p.x && segment.y == p.y

/-- `Food.generate(snakeBody, tileCount)` (src/snake.ts, Food class): the
do-while loop keeps sampling random cells until one misses the snake body.
The `Math.random` draws are modelled by the sequence `sample`; the loop
returns the first sample off the body, and it terminates exactly when such a
sample exists, which the argument `h` asserts. -/
def Food.generate (sample : Nat → Pos) (snakeBody : List Pos)
    (h : ∃ n, onBody snakeBody (sample n) = false) : Pos :=
  sample (Nat.find h)

/-- The fixed point value of a food item (`private score: number = 10`). -/
def foodScore : Nat := 10

/-- `Score.saveHighScore` (src/score.ts): write the current score to the store
exactly when it exceeds the stored value; returns the new stored value and
whether a new high score was achieved. -/
def saveHighScore (currentScore stored : Nat) : Nat × Bool :=
  if stored < currentScore then (currentScore, true) else (stored, false)

/-- The `while (accumulator >= gameSpeed)` loop of
`GameLoopController.gameLoopCallback`: counts `update()` calls and returns the
remaining accumulator. The JS loop diverges when `gameSpeed = 0`; the model
returns immediately in that (never-configured) case to stay total. -/
def runFixedUpdates (gameSpeed accumulator : Nat) : Nat × Nat :=
  if h : 0 < gameSpeed ∧ gameSpeed ≤ accumulator then
    let r := runFixedUpdates gameSpeed (accumulator - gameSpeed)
    (r.1 + 1, r.2)
  else
    (0, accumulator)
termination_by accumulator
decreasing_by omega

/-- One frame callback of `GameLoopController.gameLoopCallback`: clamp the
elapsed time to `gameSpeed * maxFrameSkip`, add it to the accumulator, and run
the fixed-timestep update loop. Returns the number of `update()` invocations
and the new accumulator. -/
def gameLoopFrame (gameSpeed maxFrameSkip accumulator deltaTime : Nat) : Nat × Nat :=
  let clampedDelta := min deltaTime (gameSpeed * maxFrameSkip)
  runFixedUpdates gameSpeed (accumulator + clampedDelta)

/-- The session states of `GameStateManager` (src/game-context.ts):
`ready | playing | paused | end` (the last one named `ended` here because
`end` is reserved in Lean). -/
inductive GState where
  | ready
  | playing
  | paused
  | ended
deriving DecidableEq, Repr

/-- The session state owned by the `Game` orchestrator (src/main.ts, second
Game class): the FSM state, the snake, the food position, the score, the
persisted high score (localStorage `snakeHighScore`), and a counter of render
signals issued to the renderer. -/
structure GameG where
  gameState : GState
  snake : Snake
  food : Pos
  score : Nat
  stored : Nat
  renders : Nat
  tileCount : Nat
deriving DecidableEq, Repr

/-- `Game.stopGame(state)`: set the FSM state (and clear the interval timer,
which has no observable effect in this state model). -/
def GameG.stopGame (g : GameG) (state : GState) : GameG :=
  { g with gameState := state }

/-- `Game.endGame`: `stopGame('end')` followed by `score.saveHighScore()`. -/
def GameG.endGame (g : GameG) : GameG :=
  let g1 := g.stopGame GState.ended
  { g1 with stored := (saveHighScore g1.score g1.stored).1 }

/-- `Game.checkCollisions`: wall collision checked first, then self collision;
either one triggers `endGame()`. The early `return` exits only this method. -/
def GameG.checkCollisions (g : GameG) : GameG :=
  if g.snake.checkWallCollision (g.tileCount : Int) || g.snake.checkSelfCollision then
    g.endGame
  else
    g

/-- `Game.checkFoodCollision`: if the food coincides with the head
(`Food.checkCollision`), add the food's score and regenerate the food —
the freshly generated position is passed in as `newFood` — otherwise
remove the tail. -/
def GameG.checkFoodCollision (newFood : Pos) (g : GameG) : GameG :=
  let head := g.snake.getHead
  if g.food.x == head.x && g.food.y == head.y then
    { g with score := g.score + foodScore, food := newFood }
  else
    { g with snake := g.snake.removeTail }

/-- `Game.update`, the per-tick simulation step: a no-op unless the state is
`playing`; otherwise `snake.move()`, `checkCollisions()`,
`checkFoodCollision()` and one render signal, in that order. -/
def GameG.update (newFood : Pos) (g : GameG) : GameG :=
  if g.gameState ≠ GState.playing then g
  else
    let g1 := { g with snake := g.snake.move }
    let g2 := g1.checkCollisions
    let g3 := GameG.checkFoodCollision newFood g2
    { g3 with renders := g3.renders + 1 }

/-- Helper for C4: folding `queueDirection` preserves the queue bound. -/
theorem queueDirections_length_le_two (ds : List Pos) :
    ∀ s : Snake, s.moveQueue.length ≤ 2 →
      (s.queueDirections ds).moveQueue.length ≤ 2 := by
  induction ds with
  | nil => intro s h; exact h
  | cons d ds ih =>
      intro s h
      have hstep : ((s.queueDirection d).moveQueue).length ≤ 2 := by
        unfold Snake.queueDirection
        by_cases hc : s.moveQueue.length < 2
        · simp [hc]; omega
        · simp [hc]; exact h
      exact ih _ hstep

/-- C3: `isValidDirectionChange(d)` returns false exactly when `d` is the
componentwise negation of the next-effective direction
(`getNextQueuedDirection`: last queued direction when the queue is non-empty,
current direction otherwise), and true for any other `d`. -/
theorem isValidDirectionChange_iff (s : Snake) (d : Pos) :
    s.isValidDirectionChange d = false ↔
      d.x = -s.getNextQueuedDirection.x ∧ d.y = -s.getNextQueuedDirection.y := by
  simp [Snake.isValidDirectionChange]

/-- C4: after any sequence of `queueDirection` calls from a state whose queue
is within the bound, the queue never holds more than 2 entries, and a single
call appends its argument exactly when the queue length is below 2. -/
theorem queueDirection_queue_bound (s : Snake) (ds : List Pos)
    (h : s.moveQueue.length ≤ 2) :
    (s.queueDirections ds).moveQueue.length ≤ 2 ∧
      ∀ d : Pos, (s.queueDirection d).moveQueue =
        if s.moveQueue.length < 2 then s.moveQueue ++ [d] else s.moveQueue := by
  refine ⟨queueDirections_length_le_two ds s h, ?_⟩
  intro d
  unfold Snake.queueDirection
  by_cases hc : s.moveQueue.length < 2 <;> simp [hc]

/-- Witness for C4: from the freshly initialised snake (empty queue), queueing
`(0,-1)` three times leaves at most 2 entries, and one call on the empty queue
appends. -/
theorem queueDirection_queue_bound_witness :
    ((Snake.init 20).queueDirections [⟨0, -1⟩, ⟨0, -1⟩, ⟨0, -1⟩]).moveQueue.length ≤ 2 ∧
      ((Snake.init 20).queueDirection ⟨0, -1⟩).moveQueue =
        (if (Snake.init 20).moveQueue.length < 2
          then (Snake.init 20).moveQueue ++ [⟨0, -1⟩]
          else (Snake.init 20).moveQueue) :=
  ⟨(queueDirection_queue_bound (Snake.init 20) [⟨0, -1⟩, ⟨0, -1⟩, ⟨0, -1⟩] (by decide)).1,
    (queueDirection_queue_bound (Snake.init 20) [⟨0, -1⟩, ⟨0, -1⟩, ⟨0, -1⟩] (by decide)).2
      ⟨0, -1⟩⟩

/-- C5: every reachable snake state has a non-empty body; `removeTail` is the
identity at body length 1 and drops exactly the last element otherwise, and no
operation empties the body. -/
theorem snake_body_never_empty (s : Snake) (h : s.Reachable) :
    1 ≤ s.body.length ∧
      (s.body.length = 1 → s.removeTail = s) ∧
      (1 < s.body.length → s.removeTail.body = s.body.dropLast) := by
  refine ⟨?_, ?_, ?_⟩
  · induction h with
    | init tileCount => simp [Snake.init]
    | move h ih => simp [Snake.move]
    | removeTail h ih =>
        unfold Snake.removeTail
        split
        · rename_i hlen
          simp only [List.length_dropLast]
          omega
        · exact ih
    | queueDirection d h ih =>
        unfold Snake.queueDirection
        split <;> exact ih
    | setDirection d r h ih =>
        simpa [Snake.setDirection] using ih
  · intro h1
    unfold Snake.removeTail
    simp [h1]
  · intro h1
    unfold Snake.removeTail
    simp [h1]

/-- Witness for C5: the initialised snake is reachable and satisfies the
invariant. -/
theorem snake_body_never_empty_witness :
    1 ≤ (Snake.init 20).body.length ∧
      ((Snake.init 20).body.length = 1 → (Snake.init 20).removeTail = Snake.init 20) ∧
      (1 < (Snake.init 20).body.length →
        (Snake.init 20).removeTail.body = (Snake.init 20).body.dropLast) :=
  snake_body_never_empty (Snake.init 20) (Snake.Reachable.init 20)

/-- C6: `move()` prepends exactly `previous head + active direction` to the
body (active direction = dequeued queue front when the queue is non-empty,
otherwise the prior `currentDirection`), leaving the rest of the body
unchanged. -/
theorem move_head_eq_prev_plus_active (s : Snake) (h : s.body ≠ []) :
    s.move.body =
        ⟨s.body.headI.x + s.activeDirection.x, s.body.headI.y + s.activeDirection.y⟩ ::
          s.body ∧
      s.move.currentDirection = s.activeDirection ∧
      s.move.moveQueue = s.moveQueue.tail := by
  cases hq : s.moveQueue with
  | nil => simp [Snake.move, Snake.activeDirection, hq]
  | cons d rest => simp [Snake.move, Snake.activeDirection, hq]

/-- Witness for C6: the initialised snake moved once. -/
theorem move_head_eq_prev_plus_active_witness :
    (Snake.init 20).move.body =
        ⟨(Snake.init 20).body.headI.x + (Snake.init 20).activeDirection.x,
          (Snake.init 20).body.headI.y + (Snake.init 20).activeDirection.y⟩ ::
          (Snake.init 20).body ∧
      (Snake.init 20).move.currentDirection = (Snake.init 20).activeDirection ∧
      (Snake.init 20).move.moveQueue = (Snake.init 20).moveQueue.tail :=
  move_head_eq_prev_plus_active (Snake.init 20) (by decide)

/-- C10: with zero current direction and an empty queue (the post-`init`
state), `move()` duplicates the head, so the head is unchanged and
`checkSelfCollision()` returns true. -/
theorem move_zero_direction_self_collision (s : Snake)
    (h0 : s.currentDirection = ⟨0, 0⟩) (hq : s.moveQueue = []) (hb : s.body ≠ []) :
    s.move.getHead = s.getHead ∧ s.move.checkSelfCollision = true := by
  cases hbody : s.body with
  | nil => exact absurd hbody hb
  | cons p rest =>
      constructor
      · simp [Snake.move, Snake.getHead, hq, h0, hbody]
      · simp [Snake.move, Snake.checkSelfCollision, hq, h0, hbody]

/-- Witness for C10: the freshly initialised snake on a 20-grid. -/
theorem move_zero_direction_self_collision_witness :
    (Snake.init 20).move.getHead = (Snake.init 20).getHead ∧
      (Snake.init 20).move.checkSelfCollision = true :=
  move_zero_direction_self_collision (Snake.init 20) (by decide) (by decide) (by decide)

/-- Scenario A start state: snake initialised on a 20-grid (body `[(10,10)]`)
with direction set to `(1,0)` (non-zero, so the random fallback is unused). -/
def c2Start : Snake :=
  (Snake.init 20).setDirection ⟨1, 0⟩ ⟨1, 0⟩

/-- Counterexample for C2: three no-food ticks (move + removeTail) yield body
`[(13,10)]`, not the claimed `[(13,10),(12,10),(11,10)]`; three bare `move()`
calls yield a 4-cell body, not the claimed 3-cell one either. -/
theorem scenarioA_counterexample :
    c2Start.tickNoFood.tickNoFood.tickNoFood.body = [⟨13, 10⟩] ∧
      c2Start.tickNoFood.tickNoFood.tickNoFood.body ≠ [⟨13, 10⟩, ⟨12, 10⟩, ⟨11, 10⟩] ∧
      c2Start.move.move.move.body = [⟨13, 10⟩, ⟨12, 10⟩, ⟨11, 10⟩, ⟨10, 10⟩] ∧
      c2Start.move.move.move.body ≠ [⟨13, 10⟩, ⟨12, 10⟩, ⟨11, 10⟩] := by
  decide

/-- C2 amended: three no-food ticks from the Scenario A start state yield body
exactly `[(13,10)]`, and wall and self collision are both false afterwards. -/
theorem scenarioA_amended :
    c2Start.tickNoFood.tickNoFood.tickNoFood.body = [⟨13, 10⟩] ∧
      c2Start.tickNoFood.tickNoFood.tickNoFood.checkWallCollision 20 = false ∧
      c2Start.tickNoFood.tickNoFood.tickNoFood.checkSelfCollision = false := by
  decide

/-- Helper for C7: the fixed-update loop computes Euclidean division by the
game speed. -/
theorem runFixedUpdates_eq_div_mod (s : Nat) (hs : 0 < s) :
    ∀ a : Nat, runFixedUpdates s a = (a / s, a % s) := by
  intro a
  induction a using Nat.strong_induction_on with
  | _ a ih =>
    rw [runFixedUpdates]
    by_cases h : s ≤ a
    · rw [dif_pos ⟨hs, h⟩, ih (a - s) (by omega)]
      rw [Nat.div_eq_sub_div hs h, Nat.mod_eq_sub_mod h]
    · rw [dif_neg (by omega)]
      have hlt : a < s := by omega
      rw [Nat.div_eq_of_lt hlt, Nat.mod_eq_of_lt hlt]

/-- C7: a single frame callback with accumulator 0, 10 seconds of elapsed
time, gameSpeed 150 and maxFrameSkip 5 invokes `update` at most 5 times (the
elapsed time is clamped to 750 ms before accumulation). -/
theorem frame_skip_clamp :
    (gameLoopFrame 150 5 0 10000).1 ≤ 5 ∧ (gameLoopFrame 150 5 0 10000).1 = 5 := by
  unfold gameLoopFrame
  rw [runFixedUpdates_eq_div_mod 150 (by norm_num)]
  norm_num

/-- C8: whenever the sample sequence stays in `[0,tileCount)²` (as
`Math.floor(Math.random()*tileCount)` does), eventually proposes every
in-range cell (true with probability 1 for uniform sampling), and at least one
in-range cell is off the snake body, the `generate` loop terminates and its
result is in range and coincides with no body cell. -/
theorem generate_spec (sample : Nat → Pos) (snakeBody : List Pos) (tileCount : Int)
    (hrange : ∀ n, 0 ≤ (sample n).x ∧ (sample n).x < tileCount ∧
        0 ≤ (sample n).y ∧ (sample n).y < tileCount)
    (hcover : ∀ p : Pos, 0 ≤ p.x → p.x < tileCount → 0 ≤ p.y → p.y < tileCount →
        ∃ n, sample n = p)
    (hfree : ∃ p : Pos, (0 ≤ p.x ∧ p.x < tileCount ∧ 0 ≤ p.y ∧ p.y < tileCount) ∧
        onBody snakeBody p = false) :
    ∃ hterm : ∃ n, onBody snakeBody (sample n) = false,
      (0 ≤ (Food.generate sample snakeBody hterm).x ∧
          (Food.generate sample snakeBody hterm).x < tileCount ∧
          0 ≤ (Food.generate sample snakeBody hterm).y ∧
          (Food.generate sample snakeBody hterm).y < tileCount) ∧
        onBody snakeBody (Food.generate sample snakeBody hterm) = false ∧
        ∀ q ∈ snakeBody, Food.generate sample snakeBody hterm ≠ q := by
  obtain ⟨p, hp, hpfree⟩ := hfree
  obtain ⟨n, hn⟩ := hcover p hp.1 hp.2.1 hp.2.2.1 hp.2.2.2
  have hterm : ∃ m, onBody snakeBody (sample m) = false := ⟨n, by rw [hn]; exact hpfree⟩
  refine ⟨hterm, hrange (Nat.find hterm), Nat.find_spec hterm, ?_⟩
  intro q hq hcontra
  have hoff : onBody snakeBody (Food.generate sample snakeBody hterm) = false :=
    Nat.find_spec hterm
  rw [hcontra] at hoff
  have hq2 : ¬ (q.x == q.x && q.y == q.y) = true := List.any_eq_false.mp hoff q hq
  simp at hq2

/-- A concrete sample sequence for the C8 witness: row-major enumeration of
the 2×2 grid. -/
def c8Sample : Nat → Pos :=
  fun n => ⟨((n % 2 : Nat) : Int), ((n / 2 % 2 : Nat) : Int)⟩

/-- Termination evidence for the C8 witness: sample 1 is the cell `(1,0)`,
which is off the body `[(0,0)]`. -/
theorem c8Hterm : ∃ n, onBody [(⟨0, 0⟩ : Pos)] (c8Sample n) = false :=
  ⟨1, by decide⟩

/-- Witness for C8: on a 2×2 grid with body `[(0,0)]`, the generated food is
in range and off the body. -/
theorem generate_spec_witness :
    (0 ≤ (Food.generate c8Sample [⟨0, 0⟩] c8Hterm).x ∧
        (Food.generate c8Sample [⟨0, 0⟩] c8Hterm).x < 2 ∧
        0 ≤ (Food.generate c8Sample [⟨0, 0⟩] c8Hterm).y ∧
        (Food.generate c8Sample [⟨0, 0⟩] c8Hterm).y < 2) ∧
      onBody [⟨0, 0⟩] (Food.generate c8Sample [⟨0, 0⟩] c8Hterm) = false := by
  have hrange : ∀ n, 0 ≤ (c8Sample n).x ∧ (c8Sample n).x < 2 ∧
      0 ≤ (c8Sample n).y ∧ (c8Sample n).y < 2 := by
    intro n
    unfold c8Sample
    dsimp only
    have h1 : n % 2 < 2 := Nat.mod_lt _ (by norm_num)
    have h2 : n / 2 % 2 < 2 := Nat.mod_lt _ (by norm_num)
    refine ⟨Int.ofNat_nonneg _, ?_, Int.ofNat_nonneg _, ?_⟩ <;> omega
  have hcover : ∀ p : Pos, 0 ≤ p.x → p.x < 2 → 0 ≤ p.y → p.y < 2 →
      ∃ n, c8Sample n = p := by
    rintro ⟨x, y⟩ hx0 hx2 hy0 hy2
    dsimp only at hx0 hx2 hy0 hy2
    refine ⟨x.toNat + 2 * y.toNat, ?_⟩
    unfold c8Sample
    simp only [Pos.mk.injEq]
    constructor <;> omega
  have hfree : ∃ p : Pos, (0 ≤ p.x ∧ p.x < 2 ∧ 0 ≤ p.y ∧ p.y < 2) ∧
      onBody [⟨0, 0⟩] p = false :=
    ⟨⟨1, 0⟩, by norm_num, by decide⟩
  obtain ⟨ht, hconc⟩ := generate_spec c8Sample [⟨0, 0⟩] 2 hrange hcover hfree
  exact ⟨hconc.1, hconc.2.1⟩

/-- A concrete playing state for C1: head at `(19,5)` moving right on a
20-grid, so the next move hits the wall; the food sits elsewhere at `(0,0)`. -/
def c1State : GameG :=
  { gameState := GState.playing
    snake := ⟨[⟨19, 5⟩], ⟨1, 0⟩, []⟩
    food := ⟨0, 0⟩
    score := 0
    stored := 0
    renders := 0
    tileCount := 20 }

/-- Helper: a detected collision makes `checkCollisions` call `endGame`. -/
theorem checkCollisions_of_collision (h : GameG)
    (hc : (h.snake.checkWallCollision (h.tileCount : Int) ||
        h.snake.checkSelfCollision) = true) :
    h.checkCollisions = h.endGame := by
  unfold GameG.checkCollisions
  rw [if_pos hc]

/-- Helper: `checkFoodCollision` never touches the FSM state, the render
counter or the high-score store. -/
theorem checkFoodCollision_preserves (nf : Pos) (h : GameG) :
    (GameG.checkFoodCollision nf h).gameState = h.gameState ∧
      (GameG.checkFoodCollision nf h).renders = h.renders ∧
      (GameG.checkFoodCollision nf h).stored = h.stored := by
  unfold GameG.checkFoodCollision
  refine ⟨?_, ?_, ?_⟩ <;> (dsimp only; split <;> rfl)

/-- Helper: in the playing state, a tick is the move, the collision check, the
food check and one render signal. -/
theorem update_playing (nf : Pos) (g : GameG) (hplay : g.gameState = GState.playing) :
    GameG.update nf g =
      { GameG.checkFoodCollision nf
            (GameG.checkCollisions { g with snake := g.snake.move }) with
        renders :=
          (GameG.checkFoodCollision nf
            (GameG.checkCollisions { g with snake := g.snake.move })).renders + 1 } := by
  unfold GameG.update
  rw [if_neg (by simp [hplay])]

/-- Counterexample for C1: on the tick that detects the wall collision the
session does transition to `end`, but the rest of the tick still runs — the
food check removes the tail (the body shrinks from `[(20,5),(19,5)]` after the
move to `[(20,5)]`) and a render signal is issued. -/
theorem collision_tick_counterexample :
    (GameG.update ⟨3, 3⟩ c1State).gameState = GState.ended ∧
      (GameG.update ⟨3, 3⟩ c1State).snake.body = [⟨20, 5⟩] ∧
      (GameG.update ⟨3, 3⟩ c1State).snake.body ≠ [⟨20, 5⟩, ⟨19, 5⟩] ∧
      (GameG.update ⟨3, 3⟩ c1State).renders = 1 := by
  decide

/-- C1 amended: during a playing tick, wall then self collision are checked
right after the move and either one transitions the session to `end`; the
remainder of the tick is still performed — the food-collision check (with its
score change or tail removal) and the render signal both occur on that tick,
applied to the post-`endGame` state. -/
theorem collision_ends_but_tick_continues (g : GameG) (nf : Pos)
    (hplay : g.gameState = GState.playing)
    (hcol : (g.snake.move.checkWallCollision (g.tileCount : Int) ||
        g.snake.move.checkSelfCollision) = true) :
    (GameG.update nf g).gameState = GState.ended ∧
      (GameG.update nf g).renders = g.renders + 1 ∧
      GameG.update nf g =
        (let g1 : GameG := { g with snake := g.snake.move }
        let g2 := g1.endGame
        let g3 := GameG.checkFoodCollision nf g2
        { g3 with renders := g3.renders + 1 }) := by
  have h1 : GameG.update nf g =
      { GameG.checkFoodCollision nf (({ g with snake := g.snake.move } : GameG).endGame) with
        renders :=
          (GameG.checkFoodCollision nf
            (({ g with snake := g.snake.move } : GameG).endGame)).renders + 1 } := by
    rw [update_playing nf g hplay,
      checkCollisions_of_collision ({ g with snake := g.snake.move } : GameG) hcol]
  refine ⟨?_, ?_, ?_⟩
  · rw [h1]
    show (GameG.checkFoodCollision nf
      (({ g with snake := g.snake.move } : GameG).endGame)).gameState = GState.ended
    rw [(checkFoodCollision_preserves nf _).1]
    rfl
  · rw [h1]
    show (GameG.checkFoodCollision nf
      (({ g with snake := g.snake.move } : GameG).endGame)).renders + 1 = g.renders + 1
    rw [(checkFoodCollision_preserves nf _).2.1]
    rfl
  · rw [h1]

/-- Witness for C1 amended: the concrete wall-collision state. -/
theorem collision_ends_but_tick_continues_witness :
    (GameG.update ⟨3, 3⟩ c1State).gameState = GState.ended ∧
      (GameG.update ⟨3, 3⟩ c1State).renders = c1State.renders + 1 := by
  have h := collision_ends_but_tick_continues c1State ⟨3, 3⟩ (by decide) (by decide)
  exact ⟨h.1, h.2.1⟩

/-- A concrete playing state for C9 (Scenario E): current score 70, stored
high score 50, about to hit the wall. -/
def c9State : GameG :=
  { gameState := GState.playing
    snake := ⟨[⟨19, 5⟩], ⟨1, 0⟩, []⟩
    food := ⟨0, 0⟩
    score := 70
    stored := 50
    renders := 0
    tileCount := 20 }

/-- C9: the `playing → end` transition (`endGame`) writes the current score to
the high-score store exactly when it is strictly greater than the stored
value and leaves the store unchanged otherwise; a tick writes the store only
by reaching `end`, so any tick that changes the stored value has transitioned
to `end` with a strictly improved score. -/
theorem high_score_spec (g : GameG) (nf : Pos) :
    g.endGame.stored = (if g.stored < g.score then g.score else g.stored) ∧
      g.endGame.gameState = GState.ended ∧
      ((GameG.update nf g).stored ≠ g.stored →
        (GameG.update nf g).gameState = GState.ended ∧
          g.stored < g.score ∧ (GameG.update nf g).stored = g.score) := by
  refine ⟨?_, ?_, ?_⟩
  · have hs : g.endGame.stored = (saveHighScore g.score g.stored).1 := rfl
    rw [hs]
    unfold saveHighScore
    split <;> rfl
  · rfl
  · intro hchanged
    by_cases hplay : g.gameState = GState.playing
    · rw [update_playing nf g hplay] at hchanged ⊢
      dsimp only at hchanged ⊢
      by_cases hcol : (({ g with snake := g.snake.move } : GameG).snake.checkWallCollision
          ((({ g with snake := g.snake.move } : GameG).tileCount : Int)) ||
          ({ g with snake := g.snake.move } : GameG).snake.checkSelfCollision) = true
      · rw [checkCollisions_of_collision ({ g with snake := g.snake.move } : GameG) hcol]
          at hchanged ⊢
        rw [(checkFoodCollision_preserves nf _).2.2] at hchanged
        refine ⟨?_, ?_, ?_⟩
        · rw [(checkFoodCollision_preserves nf _).1]
          rfl
        · by_contra himp
          apply hchanged
          show (saveHighScore g.score g.stored).1 = g.stored
          unfold saveHighScore
          rw [if_neg himp]
        · rw [(checkFoodCollision_preserves nf _).2.2]
          show (saveHighScore g.score g.stored).1 = g.score
          unfold saveHighScore
          by_cases himp : g.stored < g.score
          · rw [if_pos himp]
          · exfalso
            apply hchanged
            show (saveHighScore g.score g.stored).1 = g.stored
            unfold saveHighScore
            rw [if_neg himp]
      · rw [GameG.checkCollisions, if_neg hcol] at hchanged
        rw [(checkFoodCollision_preserves nf _).2.2] at hchanged
        exact absurd rfl hchanged
    · have hid : GameG.update nf g = g := by
        unfold GameG.update
        rw [if_pos hplay]
      rw [hid] at hchanged
      exact absurd rfl hchanged

/-- Witness for C9: Scenario E — stored 50, score 70; the transition stores
70, and the wall-collision tick from `c9State` changes the store that way. -/
theorem high_score_spec_witness :
    c9State.endGame.stored = (if c9State.stored < c9State.score
        then c9State.score else c9State.stored) ∧
      ((GameG.update ⟨3, 3⟩ c9State).gameState = GState.ended ∧
        c9State.stored < c9State.score ∧
        (GameG.update ⟨3, 3⟩ c9State).stored = c9State.score) :=
  ⟨(high_score_spec c9State ⟨3, 3⟩).1,
    (high_score_spec c9State ⟨3, 3⟩).2.2 (by decide)⟩

end SnakeGame
